import Mathlib

/-!
Shallow embedding of the session lifecycle manager and message pipeline of
the datalab server (sessions/manager.ts `SessionManager` and the
`MessagePipeline` variant), together with proofs of the specified
properties of the processor chain, the session registry and default
notebook construction.
-/

set_option autoImplicit false

/-- A message processor, as configured on the pipeline: a function of
(message, session) returning either the transformed message or the
filtered sentinel (`null` in the source, modelled as `none`). -/
def MessageProcessor (M S : Type) : Type := M → S → Option M

/-- The processor loop of `SessionManager._handleMessage` (manager.ts):
`processedMessage` starts as the incoming message; each processor in order
replaces it; a `null` result breaks out of the loop. Returns the final
value of `processedMessage` (`none` when filtered). -/
def SessionManager.processLoop {M S : Type}
    (processors : List (MessageProcessor M S)) (message : M) (session : S) :
    Option M :=
  match processors with
  | [] => some message
  | p :: rest =>
    match p message session with
    | none => none
    | some m => SessionManager.processLoop rest m session

/-- `SessionManager._handleMessage` (manager.ts): runs the processor loop,
then invokes the callback with the processed message exactly when it was
not filtered. The returned list records each callback invocation result
in order (empty list: the callback was never invoked). -/
def SessionManager.handleMessage {M S B : Type}
    (processors : List (MessageProcessor M S)) (message : M) (session : S)
    (callback : M → B) : List B :=
  match SessionManager.processLoop processors message session with
  | some processedMessage => [callback processedMessage]
  | none => []

/-- The processor loop of `MessagePipeline._handleMessage` (the second
implementation variant): textually the same loop, embedded separately so
the two variants can be compared. -/
def MessagePipeline.processLoop {M S : Type}
    (processors : List (MessageProcessor M S)) (message : M) (session : S) :
    Option M :=
  match processors with
  | [] => some message
  | p :: rest =>
    match p message session with
    | none => none
    | some m => MessagePipeline.processLoop rest m session

/-- `MessagePipeline._handleMessage`: the second variant's entry point,
with the same callback-invocation log convention as
`SessionManager.handleMessage`. -/
def MessagePipeline.handleMessage {M S B : Type}
    (processors : List (MessageProcessor M S)) (message : M) (session : S)
    (callback : M → B) : List B :=
  match MessagePipeline.processLoop processors message session with
  | some processedMessage => [callback processedMessage]
  | none => []

/-- A processor that may raise: a JavaScript function body can throw an
exception; `Except.error e` models a throw, `Except.ok` a normal return
(which may still be the filtered sentinel `none`). -/
def ThrowingProcessor (M S E : Type) : Type := M → S → Except E (Option M)

/-- The processor loop of `_handleMessage` run over processors that may
throw.  The source has no try/catch around the loop body, so a throw in a
processor aborts the loop and propagates out of `_handleMessage`. -/
def SessionManager.processLoopT {M S E : Type}
    (processors : List (ThrowingProcessor M S E)) (message : M) (session : S) :
    Except E (Option M) :=
  match processors with
  | [] => Except.ok (some message)
  | p :: rest =>
    match p message session with
    | Except.error e => Except.error e
    | Except.ok none => Except.ok none
    | Except.ok (some m) => SessionManager.processLoopT rest m session

/-- `_handleMessage` over throwing processors: the first component is the
exception that escaped `_handleMessage` (if any), the second the list of
callback invocations.  A throw reaches the caller before the final
null-check, so the callback is not invoked. -/
def SessionManager.handleMessageT {M S E B : Type}
    (processors : List (ThrowingProcessor M S E)) (message : M) (session : S)
    (callback : M → B) : Option E × List B :=
  match SessionManager.processLoopT processors message session with
  | Except.error e => (some e, [])
  | Except.ok none => (none, [])
  | Except.ok (some processedMessage) => (none, [callback processedMessage])

/-- A notebook cell as built by `_appendMarkdownCell` / `_appendCodeCell`
in the MessagePipeline source: an id, a type tag, source text, and the
optional `active` flag (present only on the markdown cell). -/
structure NotebookCell where
  id : Nat
  cellType : String
  source : String
  active : Option Bool
  deriving DecidableEq, Repr

/-- The notebook record of `_createBlankNotebook`: an id, a cell map
(cell id to cell, modelled as an association list with the most recent
insertion in front) and the ordered worksheet of cell ids. -/
structure NotebookDoc where
  id : Nat
  cells : List (Nat × NotebookCell)
  worksheet : List Nat
  deriving DecidableEq, Repr

/-- `uuid.v4()` modelled as a deterministic fresh-id generator: the state
is a counter, each call returns the counter and advances it.  This bakes
in the collision-resistance the source assumes of v4 UUIDs. -/
def uuidV4 (g : Nat) : Nat × Nat := (g, g + 1)

/-- `MessagePipeline._appendMarkdownCell`: draws a fresh id; if no cell
with that id exists, inserts a markdown cell with the fixed placeholder
content and pushes the id onto the worksheet; otherwise does nothing
(the "only insert the cell once" guard). -/
def MessagePipeline.appendMarkdownCell (notebook : NotebookDoc) (g : Nat) :
    NotebookDoc × Nat :=
  let (id, g2) := uuidV4 g
  if (notebook.cells.lookup id).isSome then (notebook, g2)
  else
    ({ notebook with
        cells := (id,
          { id := id, cellType := "markdown",
            source := "# DataLab has Markdown support",
            active := some true }) :: notebook.cells,
        worksheet := notebook.worksheet ++ [id] }, g2)

/-- `MessagePipeline._appendCodeCell`: same guarded insertion with a code
cell of empty source (and no `active` field). -/
def MessagePipeline.appendCodeCell (notebook : NotebookDoc) (g : Nat) :
    NotebookDoc × Nat :=
  let (id, g2) := uuidV4 g
  if (notebook.cells.lookup id).isSome then (notebook, g2)
  else
    ({ notebook with
        cells := (id,
          { id := id, cellType := "code", source := "",
            active := none }) :: notebook.cells,
        worksheet := notebook.worksheet ++ [id] }, g2)

/-- The two default-cell insertions performed by `_createBlankNotebook`
on a target notebook: markdown first, then code. -/
def MessagePipeline.insertDefaultCells (notebook : NotebookDoc) (g : Nat) :
    NotebookDoc × Nat :=
  let (nb2, g2) := MessagePipeline.appendMarkdownCell notebook g
  MessagePipeline.appendCodeCell nb2 g2

/-- `MessagePipeline._createBlankNotebook`: a fresh empty notebook record,
then one markdown cell and one code cell appended. -/
def MessagePipeline.createBlankNotebook (g : Nat) : NotebookDoc × Nat :=
  let (nbId, g2) := uuidV4 g
  let notebook : NotebookDoc := { id := nbId, cells := [], worksheet := [] }
  MessagePipeline.insertDefaultCells notebook g2

/-- A user connection: exposes its session key via `getSessionId()`; the
connection id distinguishes distinct connection objects. -/
structure Conn where
  sessionId : String
  connId : Nat
  deriving DecidableEq, Repr

/-- The argument record of `kernelManager.create`: the two port numbers. -/
structure KernelConfig where
  iopubPort : Nat
  shellPort : Nat
  deriving DecidableEq, Repr

/-- An opaque kernel handle as returned by the external kernel manager. -/
structure Kernel where
  kernelId : Nat
  iopubPort : Nat
  shellPort : Nat
  deriving DecidableEq, Repr

/-- An opaque document reference as returned by the external storage
facade (`new ActiveNotebook(path, storage)` in manager.ts); its id is the
document identity. -/
structure NotebookRef where
  notebookId : Nat
  deriving DecidableEq, Repr

/-- Modelled from the spec: the Session entity of sessions/session.ts
(only its declaration and constructor call sites are in the sources).
It binds a session key, one mutable current-connection reference
(nullable), one kernel handle, one document reference, and the
message-forwarding callback injected by the manager (kept as an opaque
handler tag). -/
structure Session where
  id : String
  connection : Option Conn
  kernel : Kernel
  notebook : NotebookRef
  handler : Nat
  deriving DecidableEq, Repr

/-- Modelled from the spec: `Session.updateUserConnection` replaces only
the current-connection reference; kernel and document bindings are fixed
at creation. -/
def Session.updateUserConnection (s : Session) (connection : Conn) : Session :=
  { s with connection := some connection }

/-- The external collaborators of the SessionManager: the kernel manager
(`create` may fail), the storage-backed document construction (may fail),
and the manager's bound `_handleMessage` reference passed to each new
Session. -/
structure MgrEnv where
  kmCreate : KernelConfig → Except String Kernel
  mkNotebook : Except String NotebookRef
  handler : Nat

/-- The SessionManager's mutable state: `_idToSession` (a JS object
keyed by session id, modelled as an association list whose keys are
unique) plus the state of the external port allocator. -/
structure MgrState where
  idToSession : List (String × Session)
  nextPort : Nat
  deriving Repr

/-- Modelled from the spec: `utils.getAvailablePort()` draws a fresh port
from the external port allocator; the allocator guarantees no two live
allocations collide, modelled by a strictly increasing counter. -/
def getAvailablePort (p : Nat) : Nat × Nat := (p, p + 1)

/-- `SessionManager._createSession`: allocates two fresh ports, asks the
kernel manager for a kernel (may fail), constructs the document binding
(may fail), and returns the new Session holding the connection, kernel,
notebook and the manager's message handler.  A failure propagates as a
JavaScript exception would: nothing is returned. -/
def SessionManager.createSession (env : MgrEnv) (sessionId : String)
    (connection : Conn) (ports : Nat) : Except String (Session × Nat) :=
  let (p1, ports2) := getAvailablePort ports
  let (p2, ports3) := getAvailablePort ports2
  match env.kmCreate { iopubPort := p1, shellPort := p2 } with
  | Except.error e => Except.error e
  | Except.ok kernel =>
    match env.mkNotebook with
    | Except.error e => Except.error e
    | Except.ok notebook =>
      Except.ok ({ id := sessionId, connection := some connection, kernel := kernel, notebook := notebook, handler := env.handler }, ports3)

/-- Replacement of the Session object stored under a key: JavaScript
mutates the session in place, so every occurrence of that key's entry
observes the update. -/
def MgrState.updateEntry (entries : List (String × Session)) (key : String)
    (s : Session) : List (String × Session) :=
  entries.map (fun e => if e.1 = key then (e.1, s) else e)

/-- `SessionManager._handleUserConnect`: reads the session key from the
connection; when no session exists for it, creates one and stores it in
`_idToSession`; otherwise updates the existing session's connection.
The second component is the exception escaping the handler (if any);
when it is `some e` the returned state is the unchanged input state,
because the registry assignment comes after `_createSession` returns. -/
def SessionManager.handleUserConnect (env : MgrEnv) (connection : Conn)
    (st : MgrState) : MgrState × Option String :=
  let sessionId := connection.sessionId
  match st.idToSession.lookup sessionId with
  | none =>
    match SessionManager.createSession env sessionId connection st.nextPort with
    | Except.error e => (st, some e)
    | Except.ok (session, ports) =>
      ({ idToSession := (sessionId, session) :: st.idToSession,
         nextPort := ports }, none)
  | some session =>
    let updated := MgrState.updateEntry st.idToSession sessionId
      (session.updateUserConnection connection)
    ({ st with idToSession := updated }, none)

/-- `SessionManager._handleUserDisconnect`: the source body is empty (a
TODO comment only), so the handler leaves the manager state untouched. -/
def SessionManager.handleUserDisconnect (connection : Conn) (st : MgrState) :
    MgrState :=
  st

/-- Number of registry entries stored under a key. -/
def MgrState.countKey (entries : List (String × Session)) (key : String) :
    Nat :=
  (entries.filter (fun e => e.1 = key)).length

/-- Running the loop over processors that never filter computes the
left-to-right fold of the underlying transforms. -/
theorem SessionManager.processLoop_map_some {M S : Type}
    (fs : List (M → S → M)) (m : M) (s : S) :
    SessionManager.processLoop (fs.map (fun f m2 s2 => some (f m2 s2))) m s
      = some (fs.foldl (fun acc f => f acc s) m) := by
  induction fs generalizing m with
  | nil => rfl
  | cons f rest ih => simp [SessionManager.processLoop, ih]

/-- If a prefix of the chain runs through to `m1`, the whole chain
continues from `m1` on the remaining processors. -/
theorem SessionManager.processLoop_append {M S : Type}
    (pre rest : List (MessageProcessor M S)) (m m1 : M) (s : S)
    (h : SessionManager.processLoop pre m s = some m1) :
    SessionManager.processLoop (pre ++ rest) m s
      = SessionManager.processLoop rest m1 s := by
  induction pre generalizing m with
  | nil =>
    simp [SessionManager.processLoop] at h
    subst h
    rfl
  | cons p pre ih =>
    simp only [SessionManager.processLoop, List.cons_append] at h ⊢
    cases hp : p m s with
    | none => rw [hp] at h; exact Option.noConfusion h
    | some m2 => rw [hp] at h; exact ih m2 h

/-- C1: for every configured processor chain, message and delivery
callback, if no processor returns the filtered sentinel the handler
invokes the callback exactly once with the processors applied
left-to-right in configured order; if some processor returns the
filtered sentinel, processing stops there — no processor after it can
affect the outcome — and the callback is never invoked. -/
theorem pipeline_chain_delivery {M S B : Type} :
    (∀ (fs : List (M → S → M)) (m : M) (s : S) (cb : M → B),
      SessionManager.handleMessage (fs.map (fun f m2 s2 => some (f m2 s2)))
        m s cb
        = [cb (fs.foldl (fun acc f => f acc s) m)])
    ∧ (∀ (pre post : List (MessageProcessor M S)) (p : MessageProcessor M S)
        (m m1 : M) (s : S) (cb : M → B),
        SessionManager.processLoop pre m s = some m1 → p m1 s = none →
        SessionManager.handleMessage (pre ++ p :: post) m s cb = []) := by
  constructor
  · intro fs m s cb
    simp [SessionManager.handleMessage, SessionManager.processLoop_map_some]
  · intro pre post p m m1 s cb h1 h2
    have hall := SessionManager.processLoop_append pre (p :: post) m m1 s h1
    simp [SessionManager.handleMessage, hall, SessionManager.processLoop, h2]

/-- C1 witness: a concrete chain `[+1, filter, *2]` on message 5 — the
prefix produces 6, the middle processor filters, and the handler
delivers nothing. -/
theorem pipeline_chain_delivery_witness :
    SessionManager.handleMessage
      ([fun (m : Nat) (_ : Unit) => some (m + 1)] ++
        (fun (_ : Nat) (_ : Unit) => (none : Option Nat)) ::
        [fun (m : Nat) (_ : Unit) => some (m * 2)]) 5 () (fun n => n) = [] :=
  (pipeline_chain_delivery (M := Nat) (S := Unit) (B := Nat)).2
    [fun m _ => some (m + 1)] [fun m _ => some (m * 2)]
    (fun _ _ => none) 5 6 () (fun n => n) rfl rfl

/-- The two variants' processor loops agree on every input. -/
theorem processLoop_variants_agree {M S : Type}
    (processors : List (MessageProcessor M S)) (m : M) (s : S) :
    SessionManager.processLoop processors m s
      = MessagePipeline.processLoop processors m s := by
  induction processors generalizing m with
  | nil => rfl
  | cons p rest ih =>
    simp only [SessionManager.processLoop, MessagePipeline.processLoop]
    cases p m s with
    | none => rfl
    | some m2 => exact ih m2

/-- C10: the message-handling entry points of the two implementation
variants are extensionally equal: on every chain, message, session and
callback they produce identical callback-invocation logs (same
intermediate values, same delivery or skip). -/
theorem handleMessage_variants_agree {M S B : Type}
    (processors : List (MessageProcessor M S)) (m : M) (s : S)
    (callback : M → B) :
    SessionManager.handleMessage processors m s callback
      = MessagePipeline.handleMessage processors m s callback := by
  simp only [SessionManager.handleMessage, MessagePipeline.handleMessage,
    processLoop_variants_agree]

/-- If a prefix of the throwing chain runs through normally to `m1`, the
whole chain continues from `m1` on the remaining processors. -/
theorem SessionManager.processLoopT_append {M S E : Type}
    (pre rest : List (ThrowingProcessor M S E)) (m m1 : M) (s : S)
    (h : SessionManager.processLoopT pre m s = Except.ok (some m1)) :
    SessionManager.processLoopT (pre ++ rest) m s
      = SessionManager.processLoopT rest m1 s := by
  induction pre generalizing m with
  | nil =>
    simp [SessionManager.processLoopT] at h
    subst h
    rfl
  | cons p pre ih =>
    simp only [SessionManager.processLoopT, List.cons_append] at h ⊢
    cases hp : p m s with
    | error e => rw [hp] at h; exact Except.noConfusion h
    | ok o =>
      cases o with
      | none =>
        rw [hp] at h
        exact Option.noConfusion (Except.ok.inj h)
      | some m2 => rw [hp] at h; exact ih m2 h

/-- C7: if some processor raises while handling a message, the chain
aborts there — no processor after it can affect the outcome — the
delivery callback is never invoked for that message, and the error
escapes `_handleMessage` to its caller (there is no try/catch in the
handler).  The chain itself (the only pipeline state) is an immutable
configured list, untouched by the failure. -/
theorem pipeline_processor_error_aborts {M S E B : Type}
    (pre post : List (ThrowingProcessor M S E)) (p : ThrowingProcessor M S E)
    (m m1 : M) (s : S) (e : E) (callback : M → B)
    (h1 : SessionManager.processLoopT pre m s = Except.ok (some m1))
    (h2 : p m1 s = Except.error e) :
    SessionManager.handleMessageT (pre ++ p :: post) m s callback
      = (some e, []) := by
  have hall := SessionManager.processLoopT_append pre (p :: post) m m1 s h1
  simp [SessionManager.handleMessageT, hall, SessionManager.processLoopT, h2]

/-- C7 witness: a concrete chain `[+1, throw, *2]` on message 5 — the
prefix produces 6, the middle processor throws "boom", nothing is
delivered and the error escapes. -/
theorem pipeline_processor_error_aborts_witness :
    SessionManager.handleMessageT
      ([fun (m : Nat) (_ : Unit) => Except.ok (some (m + 1))] ++
        (fun (_ : Nat) (_ : Unit) =>
          (Except.error "boom" : Except String (Option Nat))) ::
        [fun (m : Nat) (_ : Unit) => Except.ok (some (m * 2))])
      5 () (fun n => n) = (some "boom", []) :=
  pipeline_processor_error_aborts
    [fun m _ => Except.ok (some (m + 1))]
    [fun m _ => Except.ok (some (m * 2))]
    (fun _ _ => Except.error "boom") 5 6 () "boom" (fun n => n) rfl rfl

/-- C5: every default-document construction yields a worksheet of exactly
two cell ids, in order: first a markdown cell with the fixed placeholder
content, then a code cell with empty content, and the cell map holds
exactly those two cells. -/
theorem createBlankNotebook_default_cells (g : Nat) :
    ∃ (mdId codeId : Nat) (mdCell codeCell : NotebookCell),
      mdId ≠ codeId ∧
      (MessagePipeline.createBlankNotebook g).1.worksheet = [mdId, codeId] ∧
      (MessagePipeline.createBlankNotebook g).1.cells
        = [(codeId, codeCell), (mdId, mdCell)] ∧
      mdCell.cellType = "markdown" ∧
      mdCell.source = "# DataLab has Markdown support" ∧
      codeCell.cellType = "code" ∧
      codeCell.source = "" := by
  refine ⟨g + 1, g + 2,
    { id := g + 1, cellType := "markdown",
      source := "# DataLab has Markdown support", active := some true },
    { id := g + 2, cellType := "code", source := "", active := none },
    by omega, ?_, ?_, rfl, rfl, rfl, rfl⟩ <;>
  · have hne : ((g + 2 : Nat) == g + 1) = false := by
      simp only [beq_eq_false_iff_ne, ne_eq]
      omega
    simp [MessagePipeline.createBlankNotebook,
      MessagePipeline.insertDefaultCells, MessagePipeline.appendMarkdownCell,
      MessagePipeline.appendCodeCell, uuidV4, List.lookup, hne]

/-- The markdown append always advances the id generator by one call. -/
theorem MessagePipeline.appendMarkdownCell_snd (nb : NotebookDoc) (g : Nat) :
    (MessagePipeline.appendMarkdownCell nb g).2 = g + 1 := by
  by_cases h : (nb.cells.lookup g).isSome = true <;>
    simp [MessagePipeline.appendMarkdownCell, uuidV4, h]

/-- The code append always advances the id generator by one call. -/
theorem MessagePipeline.appendCodeCell_snd (nb : NotebookDoc) (g : Nat) :
    (MessagePipeline.appendCodeCell nb g).2 = g + 1 := by
  by_cases h : (nb.cells.lookup g).isSome = true <;>
    simp [MessagePipeline.appendCodeCell, uuidV4, h]

/-- When the drawn id is already in the cell map, the markdown append
leaves the notebook untouched. -/
theorem MessagePipeline.appendMarkdownCell_noop (nb : NotebookDoc) (g : Nat)
    (h : (nb.cells.lookup g).isSome = true) :
    MessagePipeline.appendMarkdownCell nb g = (nb, g + 1) := by
  simp [MessagePipeline.appendMarkdownCell, uuidV4, h]

/-- When the drawn id is already in the cell map, the code append leaves
the notebook untouched. -/
theorem MessagePipeline.appendCodeCell_noop (nb : NotebookDoc) (g : Nat)
    (h : (nb.cells.lookup g).isSome = true) :
    MessagePipeline.appendCodeCell nb g = (nb, g + 1) := by
  simp [MessagePipeline.appendCodeCell, uuidV4, h]

/-- After the markdown append, a cell with the drawn id exists. -/
theorem MessagePipeline.appendMarkdownCell_lookup_self (nb : NotebookDoc)
    (g : Nat) :
    (((MessagePipeline.appendMarkdownCell nb g).1).cells.lookup g).isSome
      = true := by
  by_cases h : (nb.cells.lookup g).isSome = true
  · simp [MessagePipeline.appendMarkdownCell, uuidV4, h]
  · simp [MessagePipeline.appendMarkdownCell, uuidV4, h, List.lookup]

/-- After the code append, a cell with the drawn id exists. -/
theorem MessagePipeline.appendCodeCell_lookup_self (nb : NotebookDoc)
    (g : Nat) :
    (((MessagePipeline.appendCodeCell nb g).1).cells.lookup g).isSome
      = true := by
  by_cases h : (nb.cells.lookup g).isSome = true
  · simp [MessagePipeline.appendCodeCell, uuidV4, h]
  · simp [MessagePipeline.appendCodeCell, uuidV4, h, List.lookup]

/-- The code append never removes an existing cell id. -/
theorem MessagePipeline.appendCodeCell_lookup_mono (nb : NotebookDoc)
    (g k : Nat) (h : (nb.cells.lookup k).isSome = true) :
    (((MessagePipeline.appendCodeCell nb g).1).cells.lookup k).isSome
      = true := by
  by_cases hg : (nb.cells.lookup g).isSome = true
  · simp [MessagePipeline.appendCodeCell, uuidV4, hg, h]
  · simp [MessagePipeline.appendCodeCell, uuidV4, hg, List.lookup]
    cases hkg : (k == g) <;> simp [h]

/-- `insertDefaultCells` unfolded through the generator bookkeeping. -/
theorem MessagePipeline.insertDefaultCells_eq (nb : NotebookDoc) (g : Nat) :
    MessagePipeline.insertDefaultCells nb g
      = MessagePipeline.appendCodeCell
          (MessagePipeline.appendMarkdownCell nb g).1 (g + 1) := by
  have h2 := MessagePipeline.appendMarkdownCell_snd nb g
  unfold MessagePipeline.insertDefaultCells
  cases hx : MessagePipeline.appendMarkdownCell nb g with
  | mk a b =>
    rw [hx] at h2
    subst h2
    rfl

/-- C6: appending a cell whose drawn id is already present in the cell
map leaves the document unchanged (only the generator advances), and
consequently running the default-document cell insertion a second time
on the same document with the same deterministic id generator is a
no-op. -/
theorem default_cell_insert_idempotent :
    (∀ (nb : NotebookDoc) (g : Nat),
        ((nb.cells.lookup g).isSome = true →
          MessagePipeline.appendMarkdownCell nb g = (nb, g + 1)) ∧
        ((nb.cells.lookup g).isSome = true →
          MessagePipeline.appendCodeCell nb g = (nb, g + 1)))
    ∧ (∀ (nb : NotebookDoc) (g : Nat),
        MessagePipeline.insertDefaultCells
            (MessagePipeline.insertDefaultCells nb g).1 g
          = ((MessagePipeline.insertDefaultCells nb g).1, g + 2)) := by
  constructor
  · intro nb g
    exact ⟨MessagePipeline.appendMarkdownCell_noop nb g,
           MessagePipeline.appendCodeCell_noop nb g⟩
  · intro nb g
    have hmd1 := MessagePipeline.appendMarkdownCell_lookup_self nb g
    have hcc1 := MessagePipeline.appendCodeCell_lookup_self
      (MessagePipeline.appendMarkdownCell nb g).1 (g + 1)
    have hmd2 := MessagePipeline.appendCodeCell_lookup_mono
      (MessagePipeline.appendMarkdownCell nb g).1 (g + 1) g hmd1
    rw [MessagePipeline.insertDefaultCells_eq nb g,
        MessagePipeline.insertDefaultCells_eq]
    rw [MessagePipeline.appendMarkdownCell_noop _ g hmd2]
    exact MessagePipeline.appendCodeCell_noop _ (g + 1) hcc1

/-- C6 witness: on a document already holding cell id 0, the markdown
append with the generator at 0 changes nothing; and re-running the
default insertion on a freshly default-populated document with the
generator reset to 0 changes nothing. -/
theorem default_cell_insert_idempotent_witness :
    MessagePipeline.insertDefaultCells
        (MessagePipeline.insertDefaultCells
          { id := 9, cells := [], worksheet := [] } 0).1 0
      = ((MessagePipeline.insertDefaultCells
          { id := 9, cells := [], worksheet := [] } 0).1, 2) ∧
    MessagePipeline.appendMarkdownCell
        { id := 9, cells := [(0, { id := 0, cellType := "markdown", source := "# DataLab has Markdown support", active := some true })], worksheet := [0] } 0
      = ({ id := 9, cells := [(0, { id := 0, cellType := "markdown", source := "# DataLab has Markdown support", active := some true })], worksheet := [0] }, 1) :=
  ⟨default_cell_insert_idempotent.2 { id := 9, cells := [], worksheet := [] } 0,
   (default_cell_insert_idempotent.1
      { id := 9, cells := [(0, { id := 0, cellType := "markdown", source := "# DataLab has Markdown support", active := some true })], worksheet := [0] } 0).1
      (by decide)⟩

/-- Lookup of the key just prepended. -/
theorem lookup_pair_cons_eq (a : String) (t : Session)
    (l : List (String × Session)) : ((a, t) :: l).lookup a = some t := by
  simp [List.lookup]

/-- Lookup of a different key skips the head entry. -/
theorem lookup_pair_cons_ne (a k : String) (t : Session)
    (l : List (String × Session)) (h : k ≠ a) :
    ((a, t) :: l).lookup k = l.lookup k := by
  simp [List.lookup, beq_false_of_ne h]

/-- One step of the in-place update. -/
theorem MgrState.updateEntry_cons (a : String) (t : Session)
    (l : List (String × Session)) (k : String) (s : Session) :
    MgrState.updateEntry ((a, t) :: l) k s
      = (if a = k then (a, s) else (a, t)) :: MgrState.updateEntry l k s :=
  rfl

/-- One step of the entry count. -/
theorem MgrState.countKey_cons (a : String) (t : Session)
    (l : List (String × Session)) (k : String) :
    MgrState.countKey ((a, t) :: l) k
      = MgrState.countKey l k + (if a = k then 1 else 0) := by
  by_cases h : a = k <;> simp [MgrState.countKey, List.filter_cons, h]

/-- A key that `lookup` misses has no registry entries at all. -/
theorem MgrState.countKey_eq_zero (entries : List (String × Session))
    (k : String) (h : entries.lookup k = none) :
    MgrState.countKey entries k = 0 := by
  induction entries with
  | nil => rfl
  | cons e rest ih =>
    obtain ⟨a, t⟩ := e
    by_cases hka : k = a
    · subst hka
      rw [lookup_pair_cons_eq] at h
      exact Option.noConfusion h
    · rw [lookup_pair_cons_ne a k t rest hka] at h
      rw [MgrState.countKey_cons]
      have hak : ¬(a = k) := fun he => hka he.symm
      simp [hak, ih h]

/-- In-place update of a key's session preserves every key's entry
count. -/
theorem MgrState.countKey_updateEntry (entries : List (String × Session))
    (k k2 : String) (s : Session) :
    MgrState.countKey (MgrState.updateEntry entries k s) k2
      = MgrState.countKey entries k2 := by
  induction entries with
  | nil => rfl
  | cons e rest ih =>
    obtain ⟨a, t⟩ := e
    rw [MgrState.updateEntry_cons]
    by_cases hak : a = k
    · rw [if_pos hak, MgrState.countKey_cons, MgrState.countKey_cons, ih]
    · rw [if_neg hak, MgrState.countKey_cons, MgrState.countKey_cons, ih]

/-- In-place update is observed by a lookup of the updated key whenever
the key is present. -/
theorem MgrState.lookup_updateEntry_self (entries : List (String × Session))
    (k : String) (s s0 : Session) (h : entries.lookup k = some s0) :
    (MgrState.updateEntry entries k s).lookup k = some s := by
  induction entries with
  | nil => exact Option.noConfusion h
  | cons e rest ih =>
    obtain ⟨a, t⟩ := e
    rw [MgrState.updateEntry_cons]
    by_cases hak : a = k
    · subst hak
      rw [if_pos rfl]
      exact lookup_pair_cons_eq a s _
    · have hka : k ≠ a := fun he => hak he.symm
      rw [lookup_pair_cons_ne a k t rest hka] at h
      rw [if_neg hak, lookup_pair_cons_ne a k t _ hka]
      exact ih h

/-- In-place update of one key leaves every other key's lookup
unchanged. -/
theorem MgrState.lookup_updateEntry_other (entries : List (String × Session))
    (k k2 : String) (s : Session) (hne : k2 ≠ k) :
    (MgrState.updateEntry entries k s).lookup k2 = entries.lookup k2 := by
  induction entries with
  | nil => rfl
  | cons e rest ih =>
    obtain ⟨a, t⟩ := e
    rw [MgrState.updateEntry_cons]
    by_cases hak : a = k
    · subst hak
      rw [if_pos rfl]
      rw [lookup_pair_cons_ne a k2 s _ hne, lookup_pair_cons_ne a k2 t _ hne]
      exact ih
    · rw [if_neg hak]
      by_cases hk2a : k2 = a
      · subst hk2a
        rw [lookup_pair_cons_eq, lookup_pair_cons_eq]
      · rw [lookup_pair_cons_ne a k2 t _ hk2a,
          lookup_pair_cons_ne a k2 t rest hk2a]
        exact ih

/-- In-place update preserves the registry's key sequence. -/
theorem MgrState.updateEntry_keys (entries : List (String × Session))
    (k : String) (s : Session) :
    (MgrState.updateEntry entries k s).map Prod.fst
      = entries.map Prod.fst := by
  induction entries with
  | nil => rfl
  | cons e rest ih =>
    obtain ⟨a, t⟩ := e
    rw [MgrState.updateEntry_cons]
    by_cases hak : a = k <;> simp [hak, ih]

/-- Successful `_createSession` run: two fresh ports are drawn, the
kernel and notebook bindings succeed, and the returned Session carries
the connection, kernel, notebook and the manager's handler. -/
theorem SessionManager.createSession_ok (env : MgrEnv) (sid : String)
    (conn : Conn) (ports : Nat) (kernel : Kernel) (nb : NotebookRef)
    (hk : env.kmCreate { iopubPort := ports, shellPort := ports + 1 }
        = Except.ok kernel)
    (hn : env.mkNotebook = Except.ok nb) :
    SessionManager.createSession env sid conn ports
      = Except.ok ({ id := sid, connection := some conn, kernel := kernel, notebook := nb, handler := env.handler }, ports + 2) := by
  simp [SessionManager.createSession, getAvailablePort, hk, hn]

/-- `_createSession` propagates a kernel-manager failure. -/
theorem SessionManager.createSession_err_kernel (env : MgrEnv) (sid : String)
    (conn : Conn) (ports : Nat) (e : String)
    (hk : env.kmCreate { iopubPort := ports, shellPort := ports + 1 }
        = Except.error e) :
    SessionManager.createSession env sid conn ports = Except.error e := by
  simp [SessionManager.createSession, getAvailablePort, hk]

/-- `_createSession` propagates a document-binding failure. -/
theorem SessionManager.createSession_err_notebook (env : MgrEnv) (sid : String)
    (conn : Conn) (ports : Nat) (kernel : Kernel) (e : String)
    (hk : env.kmCreate { iopubPort := ports, shellPort := ports + 1 }
        = Except.ok kernel)
    (hn : env.mkNotebook = Except.error e) :
    SessionManager.createSession env sid conn ports = Except.error e := by
  simp [SessionManager.createSession, getAvailablePort, hk, hn]

/-- C2: one connect event for a never-seen key constructs exactly one
Session — bound to a kernel created with the two freshly allocated ports,
the constructed document and the manager's message handler — and inserts
it into the registry under that key, where a subsequent lookup finds it;
other keys are untouched and the port allocator has advanced by two. -/
theorem connect_fresh_key_registers (env : MgrEnv) (conn : Conn)
    (st : MgrState) (kernel : Kernel) (nb : NotebookRef)
    (hfresh : st.idToSession.lookup conn.sessionId = none)
    (hk : env.kmCreate { iopubPort := st.nextPort, shellPort := st.nextPort + 1 }
        = Except.ok kernel)
    (hn : env.mkNotebook = Except.ok nb) :
    (SessionManager.handleUserConnect env conn st).2 = none ∧
    (SessionManager.handleUserConnect env conn st).1.idToSession.lookup
        conn.sessionId
      = some { id := conn.sessionId, connection := some conn, kernel := kernel, notebook := nb, handler := env.handler } ∧
    MgrState.countKey
        (SessionManager.handleUserConnect env conn st).1.idToSession
        conn.sessionId = 1 ∧
    (SessionManager.handleUserConnect env conn st).1.nextPort
      = st.nextPort + 2 ∧
    (∀ k2, k2 ≠ conn.sessionId →
      (SessionManager.handleUserConnect env conn st).1.idToSession.lookup k2
        = st.idToSession.lookup k2) := by
  have hcs := SessionManager.createSession_ok env conn.sessionId conn
    st.nextPort kernel nb hk hn
  have hmain : SessionManager.handleUserConnect env conn st
      = ({ idToSession := (conn.sessionId, { id := conn.sessionId, connection := some conn, kernel := kernel, notebook := nb, handler := env.handler }) :: st.idToSession, nextPort := st.nextPort + 2 }, none) := by
    simp [SessionManager.handleUserConnect, hfresh, hcs]
  rw [hmain]
  refine ⟨rfl, lookup_pair_cons_eq _ _ _, ?_, rfl, ?_⟩
  · rw [MgrState.countKey_cons,
      MgrState.countKey_eq_zero st.idToSession conn.sessionId hfresh]
    simp
  · intro k2 h2
    exact lookup_pair_cons_ne _ _ _ _ h2

/-- C2 witness: connecting with key "abc" to an empty registry with the
allocator at port 10 registers the session with kernel ports 10 and 11. -/
theorem connect_fresh_key_registers_witness :
    (SessionManager.handleUserConnect { kmCreate := fun c => Except.ok { kernelId := 0, iopubPort := c.iopubPort, shellPort := c.shellPort }, mkNotebook := Except.ok { notebookId := 1 }, handler := 7 } { sessionId := "abc", connId := 3 } { idToSession := [], nextPort := 10 }).1.idToSession.lookup "abc"
      = some { id := "abc", connection := some { sessionId := "abc", connId := 3 }, kernel := { kernelId := 0, iopubPort := 10, shellPort := 11 }, notebook := { notebookId := 1 }, handler := 7 } :=
  (connect_fresh_key_registers
    { kmCreate := fun c => Except.ok { kernelId := 0, iopubPort := c.iopubPort, shellPort := c.shellPort }, mkNotebook := Except.ok { notebookId := 1 }, handler := 7 }
    { sessionId := "abc", connId := 3 }
    { idToSession := [], nextPort := 10 }
    { kernelId := 0, iopubPort := 10, shellPort := 11 }
    { notebookId := 1 } rfl rfl rfl).2.1

/-- C4: when kernel creation or document-binding construction fails for a
never-seen key, `_handleUserConnect` leaves the registry exactly as it
was (nothing is registered) and the failure propagates to the caller. -/
theorem connect_binding_failure_unregistered (env : MgrEnv) (conn : Conn)
    (st : MgrState) (e : String)
    (hfresh : st.idToSession.lookup conn.sessionId = none)
    (hfail : env.kmCreate { iopubPort := st.nextPort, shellPort := st.nextPort + 1 } = Except.error e
      ∨ ∃ kernel, env.kmCreate { iopubPort := st.nextPort, shellPort := st.nextPort + 1 } = Except.ok kernel ∧ env.mkNotebook = Except.error e) :
    SessionManager.handleUserConnect env conn st = (st, some e) := by
  cases hfail with
  | inl hk =>
    have hcs := SessionManager.createSession_err_kernel env conn.sessionId
      conn st.nextPort e hk
    simp [SessionManager.handleUserConnect, hfresh, hcs]
  | inr hex =>
    obtain ⟨kernel, hk, hn⟩ := hex
    have hcs := SessionManager.createSession_err_notebook env conn.sessionId
      conn st.nextPort kernel e hk hn
    simp [SessionManager.handleUserConnect, hfresh, hcs]

/-- C4 witness: a kernel manager that always fails with "boom" leaves the
empty registry untouched and surfaces "boom" to the caller. -/
theorem connect_binding_failure_unregistered_witness :
    SessionManager.handleUserConnect { kmCreate := fun _ => Except.error "boom", mkNotebook := Except.ok { notebookId := 1 }, handler := 7 } { sessionId := "abc", connId := 3 } { idToSession := [], nextPort := 10 }
      = ({ idToSession := [], nextPort := 10 }, some "boom") :=
  connect_binding_failure_unregistered
    { kmCreate := fun _ => Except.error "boom", mkNotebook := Except.ok { notebookId := 1 }, handler := 7 }
    { sessionId := "abc", connId := 3 }
    { idToSession := [], nextPort := 10 } "boom" rfl (Or.inl rfl)

/-- C3: a connect event for a key that already has a registry entry only
swaps that Session's connection reference: the kernel handle and document
identity under the key are identical before and after, every other key's
lookup is unchanged, the key sequence of the registry is unchanged, and
no error or port allocation occurs. -/
theorem connect_existing_key_updates_only_connection (env : MgrEnv)
    (conn : Conn) (st : MgrState) (s : Session)
    (h : st.idToSession.lookup conn.sessionId = some s) :
    (SessionManager.handleUserConnect env conn st).2 = none ∧
    (SessionManager.handleUserConnect env conn st).1.nextPort
      = st.nextPort ∧
    (SessionManager.handleUserConnect env conn st).1.idToSession.lookup
        conn.sessionId = some { s with connection := some conn } ∧
    ((SessionManager.handleUserConnect env conn st).1.idToSession.lookup
        conn.sessionId).map Session.kernel = some s.kernel ∧
    ((SessionManager.handleUserConnect env conn st).1.idToSession.lookup
        conn.sessionId).map Session.notebook = some s.notebook ∧
    (∀ k2, k2 ≠ conn.sessionId →
      (SessionManager.handleUserConnect env conn st).1.idToSession.lookup k2
        = st.idToSession.lookup k2) ∧
    (SessionManager.handleUserConnect env conn st).1.idToSession.map Prod.fst
      = st.idToSession.map Prod.fst := by
  have hmain : SessionManager.handleUserConnect env conn st
      = ({ st with idToSession := MgrState.updateEntry st.idToSession conn.sessionId { s with connection := some conn } }, none) := by
    simp [SessionManager.handleUserConnect, h, Session.updateUserConnection]
  rw [hmain]
  have hlk := MgrState.lookup_updateEntry_self st.idToSession conn.sessionId
    { s with connection := some conn } s h
  refine ⟨rfl, rfl, hlk, ?_, ?_, ?_, ?_⟩
  · rw [hlk]; rfl
  · rw [hlk]; rfl
  · intro k2 h2
    exact MgrState.lookup_updateEntry_other st.idToSession conn.sessionId k2
      _ h2
  · exact MgrState.updateEntry_keys st.idToSession conn.sessionId _

/-- C3 witness: reconnecting key "abc" with a new connection (id 99)
keeps kernel and notebook and swaps only the connection reference. -/
theorem connect_existing_key_updates_only_connection_witness :
    (SessionManager.handleUserConnect { kmCreate := fun _ => Except.error "unused", mkNotebook := Except.error "unused", handler := 7 } { sessionId := "abc", connId := 99 } { idToSession := [("abc", { id := "abc", connection := some { sessionId := "abc", connId := 3 }, kernel := { kernelId := 0, iopubPort := 10, shellPort := 11 }, notebook := { notebookId := 1 }, handler := 7 })], nextPort := 12 }).1.idToSession.lookup "abc"
      = some { id := "abc", connection := some { sessionId := "abc", connId := 99 }, kernel := { kernelId := 0, iopubPort := 10, shellPort := 11 }, notebook := { notebookId := 1 }, handler := 7 } :=
  (connect_existing_key_updates_only_connection
    { kmCreate := fun _ => Except.error "unused", mkNotebook := Except.error "unused", handler := 7 }
    { sessionId := "abc", connId := 99 }
    { idToSession := [("abc", { id := "abc", connection := some { sessionId := "abc", connId := 3 }, kernel := { kernelId := 0, iopubPort := 10, shellPort := 11 }, notebook := { notebookId := 1 }, handler := 7 })], nextPort := 12 }
    { id := "abc", connection := some { sessionId := "abc", connId := 3 }, kernel := { kernelId := 0, iopubPort := 10, shellPort := 11 }, notebook := { notebookId := 1 }, handler := 7 }
    (by decide)).2.2.1

/-- C9: two connect events carrying the same never-seen key — delivered
in either order, as the single-threaded event loop serializes them —
leave exactly one Session registered for that key: the second event
finds the entry inserted by the first and takes the reconnect branch
instead of creating a duplicate. -/
theorem connect_same_key_twice_one_session (env : MgrEnv) (ca cb : Conn)
    (st : MgrState) (k : String)
    (hka : ca.sessionId = k) (hkb : cb.sessionId = k)
    (hfresh : st.idToSession.lookup k = none)
    (hok : (SessionManager.handleUserConnect env ca st).2 = none) :
    MgrState.countKey
        (SessionManager.handleUserConnect env cb
          (SessionManager.handleUserConnect env ca st).1).1.idToSession k
      = 1 ∧
    (SessionManager.handleUserConnect env cb
      (SessionManager.handleUserConnect env ca st).1).2 = none := by
  have hfa : st.idToSession.lookup ca.sessionId = none := by
    rw [hka]; exact hfresh
  cases hcs : SessionManager.createSession env ca.sessionId ca st.nextPort with
  | error e =>
    exfalso
    have herr : (SessionManager.handleUserConnect env ca st).2 = some e := by
      simp [SessionManager.handleUserConnect, hfa, hcs]
    rw [herr] at hok
    exact Option.noConfusion hok
  | ok pair =>
    obtain ⟨sess, ports⟩ := pair
    have h1 : SessionManager.handleUserConnect env ca st
        = ({ idToSession := (ca.sessionId, sess) :: st.idToSession, nextPort := ports }, none) := by
      simp [SessionManager.handleUserConnect, hfa, hcs]
    rw [h1]
    have hlk : ((ca.sessionId, sess) :: st.idToSession).lookup cb.sessionId
        = some sess := by
      rw [hkb, ← hka]
      exact lookup_pair_cons_eq _ _ _
    have h2 : SessionManager.handleUserConnect env cb
          { idToSession := (ca.sessionId, sess) :: st.idToSession, nextPort := ports }
        = ({ idToSession := MgrState.updateEntry ((ca.sessionId, sess) :: st.idToSession) cb.sessionId (sess.updateUserConnection cb), nextPort := ports }, none) := by
      simp [SessionManager.handleUserConnect, hlk]
    rw [h2]
    refine ⟨?_, rfl⟩
    rw [MgrState.countKey_updateEntry, MgrState.countKey_cons,
      MgrState.countKey_eq_zero st.idToSession k hfresh, hka]
    simp

/-- C9 witness: two connections with key "abc" arriving at an empty
registry, in sequence, leave exactly one "abc" entry. -/
theorem connect_same_key_twice_one_session_witness :
    MgrState.countKey
        (SessionManager.handleUserConnect { kmCreate := fun c => Except.ok { kernelId := 0, iopubPort := c.iopubPort, shellPort := c.shellPort }, mkNotebook := Except.ok { notebookId := 1 }, handler := 7 } { sessionId := "abc", connId := 4 }
          (SessionManager.handleUserConnect { kmCreate := fun c => Except.ok { kernelId := 0, iopubPort := c.iopubPort, shellPort := c.shellPort }, mkNotebook := Except.ok { notebookId := 1 }, handler := 7 } { sessionId := "abc", connId := 3 } { idToSession := [], nextPort := 10 }).1).1.idToSession
        "abc" = 1 :=
  (connect_same_key_twice_one_session
    { kmCreate := fun c => Except.ok { kernelId := 0, iopubPort := c.iopubPort, shellPort := c.shellPort }, mkNotebook := Except.ok { notebookId := 1 }, handler := 7 }
    { sessionId := "abc", connId := 3 } { sessionId := "abc", connId := 4 }
    { idToSession := [], nextPort := 10 } "abc" rfl rfl rfl rfl).1

/-- C8 (amended): a disconnect event leaves the manager state entirely
unchanged — the Session's kernel handle, document binding, registry
entry and also its connection reference are all retained; no disconnect
destroys kernel or document state (disconnect handling is an explicit
TODO in the source, so the connection reference is not cleared). -/
theorem disconnect_retains_all_state (conn : Conn) (st : MgrState) :
    SessionManager.handleUserDisconnect conn st = st :=
  rfl

/-- C8 counterexample: after a disconnect event for the very connection
a registered Session holds, the Session's connection reference is not
cleared — it still refers to that connection, refuting the claimed
ATTACHED-to-DETACHED transition. -/
theorem disconnect_connection_not_cleared :
    ¬ (((SessionManager.handleUserDisconnect { sessionId := "abc", connId := 3 } { idToSession := [("abc", { id := "abc", connection := some { sessionId := "abc", connId := 3 }, kernel := { kernelId := 0, iopubPort := 10, shellPort := 11 }, notebook := { notebookId := 1 }, handler := 7 })], nextPort := 12 }).idToSession.lookup "abc").map Session.connection = some none) := by
  decide
